import Mathlib

/-
Verification of the Sql-backup repository's specification against a shallow
embedding of its code.

Python strings are modelled as `List Char`; Python `None`-able values as
`Option`; the dynamically typed runtime values reaching the value encoders as
inductive types (`MyVal` for the pymysql driver, `PgVal` for psycopg2).
Sources: src/backup/mysql_backup.py, src/backup/postgres_backup.py,
src/restore/mysql_restore.py, src/restore/postgres_restore.py.
-/

/-- Python strings, modelled as lists of characters. -/
abbrev Str := List Char

/-- Decimal digits of a natural number, as Python's `str(n)` produces them. -/
def natStr (n : Nat) : Str := Nat.toDigits 10 n

/-- Python's `str` on an `int`, including the leading minus sign. -/
def intStr : Int → Str
  | .ofNat n => natStr n
  | .negSucc n => '-' :: natStr (n + 1)

/-- Zero-padding to width `w`, as `strftime`'s numeric directives do. -/
def padNat (w n : Nat) : Str := List.replicate (w - (natStr n).length) '0' ++ natStr n

/-- The text `strftime('%Y-%m-%d')` produces for a date. -/
def fmtDate (y mo d : Nat) : Str :=
  padNat 4 y ++ ('-' :: padNat 2 mo) ++ ('-' :: padNat 2 d)

/-- The text `strftime('%Y-%m-%d %H:%M:%S')` produces for a datetime. -/
def fmtDateTime (y mo d h mi s : Nat) : Str :=
  fmtDate y mo d ++ (' ' :: padNat 2 h) ++ (':' :: padNat 2 mi) ++ (':' :: padNat 2 s)

/-- Lowercase hexadecimal digit for `n < 16`. -/
def hexDigit (n : Nat) : Char :=
  if n < 10 then Char.ofNat (48 + n) else Char.ofNat (87 + n)

/-- Two lowercase hex digits of one byte, as in Python's `bytes.hex()`. -/
def hexByte (b : Nat) : Str := [hexDigit (b / 16 % 16), hexDigit (b % 16)]

/-- Python's `s.replace("'", "''")`: each single quote is doubled
(mysql_backup.py line 25, postgres_backup.py line 40). -/
def escQuote : Str → Str
  | [] => []
  | c :: rest => if c = '\'' then '\'' :: '\'' :: escQuote rest else c :: escQuote rest

/-- Python's `repr` (= `str`) of a `bytes` object: `b'...'` with printable
bytes kept, `\t`/`\n`/`\r`, backslash and the delimiter escaped, everything
else as `\xhh`; the delimiter is `"` exactly when the bytes contain `'` but
no `"`. Used by the Postgres encoder's fallback `str(value)` branch. -/
def pyReprBytes (bs : List Nat) : Str :=
  let q : Nat := if 39 ∈ bs ∧ ¬ (34 ∈ bs) then 34 else 39
  let esc : Nat → Str := fun b =>
    if b = 92 then ['\\', '\\']
    else if b = q then ['\\', Char.ofNat q]
    else if b = 9 then ['\\', 't']
    else if b = 10 then ['\\', 'n']
    else if b = 13 then ['\\', 'r']
    else if 32 ≤ b ∧ b ≤ 126 then [Char.ofNat b]
    else '\\' :: 'x' :: hexByte b
  'b' :: Char.ofNat q :: (bs.foldr (fun b acc => esc b ++ acc) [Char.ofNat q])

/-- Runtime values the pymysql driver hands to `_format_value`
(mysql_backup.py lines 21-35). A pure `date` (not `datetime`) falls through
to the final stringification branch there. -/
inductive MyVal
  | none
  | str (s : Str)
  | bool (b : Bool)
  | datetime (y mo d h mi s : Nat)
  | date (y mo d : Nat)
  | int (n : Int)
  | float (repr : Str)
  | bytes (bs : List Nat)
deriving DecidableEq, Repr

/-- Embeds `_format_value` of src/backup/mysql_backup.py (lines 21-35).
Branches in source order: None, str, bool, datetime, int/float, bytes, else.
A `date` value is not a `datetime` instance, so it reaches the else branch:
`"'" + str(value).replace("'", "''") + "'"`, and `str(date)` is `YYYY-MM-DD`. -/
def mysqlFormatValue : MyVal → Str
  | .none => "NULL".data
  | .str s => '\'' :: escQuote s ++ ['\'']
  | .bool b => if b then "TRUE".data else "FALSE".data
  | .datetime y mo d h mi s => '\'' :: fmtDateTime y mo d h mi s ++ ['\'']
  | .int n => intStr n
  | .float r => r
  | .bytes bs => "0x".data ++ bs.foldr (fun b acc => hexByte b ++ acc) []
  | .date y mo d => '\'' :: escQuote (fmtDate y mo d) ++ ['\'']

/-- Runtime values the psycopg2 driver hands to `format_value`
(postgres_backup.py lines 30-44). psycopg2 delivers `bytea` as `memoryview`;
a raw `bytes` object reaches the final `str(value)` branch. -/
inductive PgVal
  | none
  | datetime (y mo d h mi s : Nat)
  | date (y mo d : Nat)
  | pylist (items : List Str)
  | str (s : Str)
  | memview (bs : List Nat)
  | bool (b : Bool)
  | int (n : Int)
  | float (repr : Str)
  | bytes (bs : List Nat)
deriving DecidableEq, Repr

/-- Python's `isinstance(value, date)` for the values reaching the date branch
of `format_value`: true for BOTH `date` and `datetime`, because `datetime`
subclasses `date`. This is what makes the `%H:%M:%S` branch of
postgres_backup.py line 35-36 unreachable. -/
def pgIsDateInstance : PgVal → Bool
  | .datetime _ _ _ _ _ _ => true
  | .date _ _ _ => true
  | _ => false

/-- Embeds `format_value` of src/backup/postgres_backup.py (lines 30-44).
Branches in source order: None, datetime/date, list, str, memoryview, else
(`str(value)` — covers bool, int, float and raw bytes). The date branch keeps
the source's conditional `if isinstance(value, date)` intact. -/
def pgFormatValue : PgVal → Str
  | .none => "NULL".data
  | .datetime y mo d h mi s =>
      if pgIsDateInstance (.datetime y mo d h mi s)
      then '\'' :: fmtDate y mo d ++ ['\'']
      else '\'' :: fmtDateTime y mo d h mi s ++ ['\'']
  | .date y mo d =>
      if pgIsDateInstance (.date y mo d)
      then '\'' :: fmtDate y mo d ++ ['\'']
      else '\'' :: fmtDateTime y mo d 0 0 0 ++ ['\'']
  | .pylist items => '\'' :: '\x7b' :: (List.intercalate ",".data items ++ ('\x7d' :: ['\'']))
  | .str s => '\'' :: escQuote s ++ ['\'']
  | .memview _ => "'<memory>'".data
  | .bool b => if b then "True".data else "False".data
  | .int n => intStr n
  | .float r => r
  | .bytes bs => pyReprBytes bs

/-- Collapse each doubled single quote to one quote (left to right). -/
def collapseQuotes : Str → Str
  | [] => []
  | [c] => [c]
  | c :: d :: rest =>
    if c = '\'' ∧ d = '\'' then '\'' :: collapseQuotes rest
    else c :: collapseQuotes (d :: rest)

/-- Re-parser of a produced literal, following the spec's words for the
round-trip property: strip the outer single quotes, then collapse each
doubled quote. Returns `none` when the text is not a single-quoted literal. -/
def specReparseLiteral : Str → Option Str
  | [] => Option.none
  | c :: rest =>
    if c = '\'' ∧ rest.getLast? = some '\'' then some (collapseQuotes rest.dropLast)
    else Option.none

/-- Python's `text.split(sep)` for a one-character separator: always returns
at least one fragment; `"".split(sep) = [""]`. -/
def pySplit (sep : Char) : Str → List Str
  | [] => [[]]
  | c :: rest =>
    if c = sep then [] :: pySplit sep rest
    else
      match pySplit sep rest with
      | [] => [[c]]
      | f :: fs => (c :: f) :: fs

/-- Embeds the splitting step of `read_sql_commands_from_file`
(mysql_restore.py lines 80-81 and postgres_restore.py lines 61-62, identical):
`file.read().split(';')[:-1]` — split the stored text on `;` and drop the
last fragment unconditionally. -/
def read_sql_commands (text : Str) : List Str := (pySplit ';' text).dropLast

-- Postgres backup model (src/backup/postgres_backup.py) -----------------------

/-- One row of `information_schema.columns` as `get_table_definitions`
retrieves it (postgres_backup.py lines 86-94). -/
structure PgCol where
  name : Str
  data_type : Str
  is_nullable : Str
  column_default : Option Str
deriving DecidableEq, Repr

/-- One foreign-key row as `get_foreign_keys` retrieves it
(postgres_backup.py lines 96-109). -/
structure PgFK where
  constraint_name : Str
  table_name : Str
  column_name : Str
  foreign_table_name : Str
  foreign_column_name : Str
deriving DecidableEq, Repr

/-- One sequence with the `pg_sequences` attributes used by
`create_sequence_statement` (postgres_backup.py lines 133-150). -/
structure PgSeq where
  name : Str
  start_value : Int
  increment_by : Int
  min_value : Option Int
  max_value : Option Int
  cache_size : Int
deriving DecidableEq, Repr

/-- One relation (base table or view) of the live database's public schema,
with everything the backup queries can retrieve about it. -/
structure PgRel where
  name : Str
  table_type : Str
  columns : List PgCol
  rows : List (List PgVal)
  fks : List PgFK
  pks : List Str
  perms : List (Str × Str)
deriving DecidableEq, Repr

/-- Snapshot of the live Postgres database a backup run reads from. -/
structure PgDB where
  rels : List PgRel
  sequences : List PgSeq
  udtypes : List (Str × List Str)
deriving DecidableEq, Repr

/-- Catalog lookup of a relation by name; `none` models a name the database
does not have (the driver would raise there; the claims only instantiate
names that exist, and absent names yield empty query results below). -/
def PgDB.rel? (db : PgDB) (t : Str) : Option PgRel :=
  db.rels.find? (fun r => r.name == t)

/-- Result of `get_table_definitions(table)`. -/
def pgCols (db : PgDB) (t : Str) : List PgCol := ((db.rel? t).map PgRel.columns).getD []

/-- Result of `SELECT * FROM {table}` in the data loop. -/
def pgRows (db : PgDB) (t : Str) : List (List PgVal) := ((db.rel? t).map PgRel.rows).getD []

/-- Result of `get_foreign_keys(table)`. -/
def pgFks (db : PgDB) (t : Str) : List PgFK := ((db.rel? t).map PgRel.fks).getD []

/-- Result of `get_primary_keys(table)`. -/
def pgPks (db : PgDB) (t : Str) : List Str := ((db.rel? t).map PgRel.pks).getD []

/-- Result of `get_table_permissions(table)`. -/
def pgPerms (db : PgDB) (t : Str) : List (Str × Str) := ((db.rel? t).map PgRel.perms).getD []

/-- Result of the column query inside the data loop (name, data_type pairs,
postgres_backup.py lines 314-320). -/
def pgDataCols (db : PgDB) (t : Str) : List (Str × Str) :=
  (pgCols db t).map (fun c => (c.name, c.data_type))

/-- Labels of one user-defined enum type, as `get_user_defined_types` groups
them (postgres_backup.py lines 179-193). -/
def pgTypeLabels (db : PgDB) (n : Str) : List Str :=
  ((db.udtypes.find? (fun p => p.1 == n)).map Prod.snd).getD []

/-- The `pg_sequences` row for one sequence (postgres_backup.py lines
135-141); the default is never reached for sequences listed in the snapshot. -/
def pgSeqInfo (db : PgDB) (s : Str) : PgSeq :=
  (db.sequences.find? (fun q => q.name == s)).getD ⟨s, 1, 1, Option.none, Option.none, 1⟩

/-- Embeds `create_foreign_key_statement` (postgres_backup.py lines 8-18). -/
def create_foreign_key_statement (foreign_keys : List PgFK) : Str :=
  List.intercalate "\n".data (foreign_keys.map (fun fk =>
    "ALTER TABLE ONLY public.".data ++ fk.table_name ++
    " ADD CONSTRAINT ".data ++ fk.constraint_name ++
    " FOREIGN KEY (".data ++ fk.column_name ++
    ") REFERENCES public.".data ++ fk.foreign_table_name ++
    "(".data ++ fk.foreign_column_name ++
    ") ON UPDATE CASCADE ON DELETE RESTRICT;".data))

/-- Embeds `create_permission_statements` (postgres_backup.py lines 21-27). -/
def create_permission_statements (table : Str) (permissions : List (Str × Str)) : Str :=
  List.intercalate "\n".data (permissions.map (fun p =>
    "GRANT ".data ++ p.2 ++ " ON TABLE public.".data ++ table ++ " TO ".data ++ p.1 ++ ";".data))

/-- Embeds `create_insert_statement` (postgres_backup.py lines 47-56). -/
def create_insert_statement (table : Str) (columns : List (Str × Str))
    (rows : List (List PgVal)) : Str :=
  "INSERT INTO public.".data ++ table ++ " (".data ++
  List.intercalate ", ".data (columns.map Prod.fst) ++ ") VALUES \n".data ++
  List.intercalate ",\n".data (rows.map (fun row =>
    "(".data ++ List.intercalate ", ".data (row.map pgFormatValue) ++ ")".data)) ++
  ";".data

/-- Embeds `create_type_statement` (postgres_backup.py lines 59-65). -/
def create_type_statement (type_name : Str) (labels : List Str) : Str :=
  "DROP TYPE IF EXISTS public.".data ++ type_name ++ " CASCADE;\n".data ++
  "CREATE TYPE public.".data ++ type_name ++ " AS ENUM (\n".data ++
  List.intercalate ",\n".data (labels.map (fun l => "    '".data ++ l ++ "'".data)) ++
  "\n);\n".data

/-- Embeds `create_sequence_statement` (postgres_backup.py lines 133-150),
with the `pg_sequences` row passed in. -/
def create_sequence_statement (sequence : Str) (info : PgSeq) : Str :=
  "DROP SEQUENCE IF EXISTS public.".data ++ sequence ++ " CASCADE;\n".data ++
  "CREATE SEQUENCE public.".data ++ sequence ++ "\n".data ++
  "    START WITH ".data ++ intStr info.start_value ++ "\n".data ++
  "    INCREMENT BY ".data ++ intStr info.increment_by ++ "\n".data ++
  (match info.min_value with
   | Option.none => "    NO MINVALUE\n".data
   | some m => "    MINVALUE ".data ++ intStr m ++ "\n".data) ++
  (match info.max_value with
   | Option.none => "    NO MAXVALUE\n".data
   | some m => "    MAXVALUE ".data ++ intStr m ++ "\n".data) ++
  "    CACHE ".data ++ intStr info.cache_size ++ ";\n".data

/-- Python's `s.replace(pat, rep)` for a non-empty pattern, leftmost and
non-overlapping, via structural fuel (one unit per consumed character). -/
def replaceSubAux (pat rep : Str) : Nat → Str → Str
  | 0, s => s
  | _, [] => []
  | fuel + 1, c :: rest =>
    if pat.isPrefixOf (c :: rest) then rep ++ replaceSubAux pat rep fuel (rest.drop (pat.length - 1))
    else c :: replaceSubAux pat rep fuel rest

/-- Python's `s.replace(pat, rep)` (non-empty `pat`). -/
def pyReplace (s pat rep : Str) : Str := replaceSubAux pat rep s.length s

/-- Occurrence of `pat` at some position of the text, scanned left to right. -/
def isSubAux (pat : Str) : Str → Bool
  | [] => pat.isEmpty
  | c :: rest => pat.isPrefixOf (c :: rest) || isSubAux pat rest

/-- Python's `pat in s` substring test. -/
def pyContains (s pat : Str) : Bool := isSubAux pat s

/-- The column-definition text built for one column by
`create_table_statement`'s loop (postgres_backup.py lines 157-173), including
the family-specific type normalizations. -/
def pgColDef (col : PgCol) : Str :=
  let norm : Str × Option Str :=
    if col.data_type == "USER-DEFINED".data then
      ("public.mpaa_rating".data, some "'G'::public.mpaa_rating".data)
    else if pyContains col.data_type "ARRAY".data then ("text[]".data, col.column_default)
    else if col.data_type == "character".data then ("character(100)".data, col.column_default)
    else (col.data_type, col.column_default)
  let base : Str := '\t' :: col.name ++ (' ' :: norm.1)
  let withDefault : Str :=
    match norm.2 with
    | some d =>
        if d.isEmpty then base
        else
          let d' := if pyContains d "nextval(".data
                    then pyReplace d "nextval('".data "nextval('public.".data
                    else d
          base ++ " DEFAULT ".data ++ d'
    | Option.none => base
  if col.is_nullable == "NO".data then withDefault ++ " NOT NULL".data else withDefault

/-- Embeds `create_table_statement` (postgres_backup.py lines 152-177), with
the primary keys (`get_primary_keys`) passed in. -/
def create_table_statement (table : Str) (columns : List PgCol) (primary_keys : List Str) : Str :=
  "DROP TABLE IF EXISTS public.".data ++ table ++ " CASCADE;\n".data ++
  "CREATE TABLE public.".data ++ table ++ " (\n".data ++
  List.intercalate ",\n".data
    (columns.map pgColDef ++
     (if primary_keys.isEmpty then []
      else ['\t' :: "PRIMARY KEY (".data ++ List.intercalate ", ".data primary_keys ++ ")".data])) ++
  "\n);\n".data

/-- The backup type tests `backup_type in ['structure', 'structure_data']`. -/
def structLike (bt : Str) : Bool := bt == "structure".data || bt == "structure_data".data

/-- The backup type tests `backup_type in ['data', 'structure_data']`. -/
def dataLike (bt : Str) : Bool := bt == "data".data || bt == "structure_data".data

/-- The table list a Postgres backup run iterates over: the catalog's BASE
TABLE names when `tables is None`, otherwise the caller's list verbatim
(postgres_backup.py lines 232-242). -/
def pgAllTables (db : PgDB) : Option (List Str) → List Str
  | Option.none => (db.rels.filter (fun r => r.table_type == "BASE TABLE".data)).map PgRel.name
  | some ts => ts

/-- One emitted unit of the Postgres backup script, tagged by kind and keyed
by the catalog object it renders; `renderPgPiece` maps it to the exact text
the source appends to `backup_sql`. -/
inductive PgPiece
  | typeStmt (type_name : Str)
  | seqStmt (sequence : Str)
  | createTable (t : Str)
  | insertData (t : Str)
  | fkAlter (t : Str)
  | permStmt (t : Str)
deriving DecidableEq, Repr

/-- Enum-type section (postgres_backup.py lines 285-288): only when backing
up structure and no explicit table list was given. -/
def pgTypeSec (db : PgDB) (bt : Str) (inc : Bool) : List PgPiece :=
  if structLike bt && inc then db.udtypes.map (fun p => PgPiece.typeStmt p.1) else []

/-- Sequence section (postgres_backup.py lines 291-294). -/
def pgSeqSec (db : PgDB) (bt : Str) (inc : Bool) : List PgPiece :=
  if structLike bt && inc then db.sequences.map (fun s => PgPiece.seqStmt s.name) else []

/-- Table DDL section (postgres_backup.py lines 297-306), in table order. -/
def pgCreateSec (bt : Str) (ts : List Str) : List PgPiece :=
  if structLike bt then ts.map PgPiece.createTable else []

/-- Data section (postgres_backup.py lines 309-325): one INSERT per table
that has at least one row. -/
def pgDataSec (db : PgDB) (bt : Str) (ts : List Str) : List PgPiece :=
  if dataLike bt then
    ts.filterMap (fun t => if (pgRows db t).isEmpty then Option.none
                           else some (PgPiece.insertData t))
  else []

/-- Deferred foreign-key section (postgres_backup.py lines 328-332):
`foreign_keys_to_add` was filled in the create loop's table order, and tables
without foreign keys are skipped. -/
def pgFkSec (db : PgDB) (bt : Str) (ts : List Str) : List PgPiece :=
  if structLike bt then
    ts.filterMap (fun t => if (pgFks db t).isEmpty then Option.none
                           else some (PgPiece.fkAlter t))
  else []

/-- Permission section (postgres_backup.py lines 334-338). -/
def pgPermSec (db : PgDB) (ip : Bool) (ts : List Str) : List PgPiece :=
  if ip then
    ts.filterMap (fun t => if (pgPerms db t).isEmpty then Option.none
                           else some (PgPiece.permStmt t))
  else []

/-- Embeds `PostgresBackup.backup` (postgres_backup.py lines 204-345) as the
ordered list of emitted script units. -/
def pgBackupPieces (db : PgDB) (bt : Str) (tables : Option (List Str)) (ip : Bool) :
    List PgPiece :=
  pgTypeSec db bt tables.isNone ++ pgSeqSec db bt tables.isNone ++
  pgCreateSec bt (pgAllTables db tables) ++ pgDataSec db bt (pgAllTables db tables) ++
  pgFkSec db bt (pgAllTables db tables) ++ pgPermSec db ip (pgAllTables db tables)

/-- The exact text one `PgPiece` contributes to `backup_sql` (each source
loop appends the builder's output plus `"\n"`). -/
def renderPgPiece (db : PgDB) : PgPiece → Str
  | .typeStmt n => create_type_statement n (pgTypeLabels db n) ++ "\n".data
  | .seqStmt s => create_sequence_statement s (pgSeqInfo db s) ++ "\n".data
  | .createTable t => create_table_statement t (pgCols db t) (pgPks db t) ++ "\n".data
  | .insertData t => create_insert_statement t (pgDataCols db t) (pgRows db t) ++ "\n".data
  | .fkAlter t => create_foreign_key_statement (pgFks db t) ++ "\n".data
  | .permStmt t => create_permission_statements t (pgPerms db t) ++ "\n".data

/-- The fixed pragma preamble of the Postgres backup script
(postgres_backup.py lines 218-229). -/
def pgPreamble : Str :=
  ("SET statement_timeout = 0;\nSET lock_timeout = 0;\nSET idle_in_transaction_session_timeout = 0;\nSET client_encoding = 'UTF8';\nSET standard_conforming_strings = on;\nSELECT pg_catalog.set_config('search_path', '', false);\nSET check_function_bodies = false;\nSET xmloption = content;\nSET client_min_messages = warning;\nSET row_security = off;\n").data

/-- The full Postgres backup artifact: the preamble followed by every piece's
rendered text, in emission order. -/
def pgBackup (db : PgDB) (bt : Str) (tables : Option (List Str)) (ip : Bool) : Str :=
  pgPreamble ++ ((pgBackupPieces db bt tables ip).map (renderPgPiece db)).flatten

-- MySQL backup model (src/backup/mysql_backup.py) -----------------------------

/-- One relation of the MySQL database, with everything the backup queries
can retrieve about it: `information_schema.tables` name and type, the `SHOW
CREATE TABLE` text, and `SELECT *` column names and rows. -/
structure MyRel where
  name : Str
  table_type : Str
  createStmt : Str
  colNames : List Str
  rows : List (List MyVal)
deriving DecidableEq, Repr

/-- Snapshot of the live MySQL database a backup run reads from. -/
structure MyDB where
  rels : List MyRel
  grants : List Str
deriving DecidableEq, Repr

/-- Catalog lookup of a relation by name. -/
def MyDB.rel? (db : MyDB) (t : Str) : Option MyRel :=
  db.rels.find? (fun r => r.name == t)

/-- Rows of `SELECT * FROM {table}` (mysql_backup.py line 130). -/
def mysqlRows (db : MyDB) (t : Str) : List (List MyVal) := ((db.rel? t).map MyRel.rows).getD []

/-- Column names from `cursor.description` (mysql_backup.py line 133). -/
def mysqlCols (db : MyDB) (t : Str) : List Str := ((db.rel? t).map MyRel.colNames).getD []

/-- The `SHOW CREATE TABLE` text (mysql_backup.py lines 118-119). -/
def mysqlCreateStmt (db : MyDB) (t : Str) : Str := ((db.rel? t).map MyRel.createStmt).getD []

/-- The (table_name, table_type) pairs the backup iterates over
(mysql_backup.py lines 97-108): all relations of the schema, or the ones
whose name is in the explicit list, in catalog order either way. -/
def mysqlTargets (db : MyDB) : Option (List Str) → List (Str × Str)
  | Option.none => db.rels.map (fun r => (r.name, r.table_type))
  | some ts => (db.rels.filter (fun r => ts.contains r.name)).map (fun r => (r.name, r.table_type))

/-- One fragment of a MySQL backup entry, tagged by kind with the data it
renders; `renderMyFrag` maps it to the exact string the source appends. -/
inductive MyFrag
  | header
  | struct (t : Str) (isView : Bool) (createStmt : Str)
  | data (t : Str) (cols : List Str) (rows : List (List MyVal))
  | permissions (grants : List Str)
  | footer
deriving DecidableEq, Repr

/-- The fragment list built for one table by the loop body of
`MySQLBackup.backup` (mysql_backup.py lines 110-146): optional shared header,
then structure DDL when requested, then the data block for a BASE TABLE with
at least one row. -/
def mysqlTableFrags (db : MyDB) (bt : Str) (withHeader : Bool) (t ttype : Str) : List MyFrag :=
  (if withHeader then [MyFrag.header] else []) ++
  (if structLike bt then [MyFrag.struct t (ttype == "VIEW".data) (mysqlCreateStmt db t)] else []) ++
  (if ttype == "BASE TABLE".data && dataLike bt && !(mysqlRows db t).isEmpty
   then [MyFrag.data t (mysqlCols db t) (mysqlRows db t)] else [])

/-- The per-table entries of `backup_data`, in iteration order; `hw` models
`header_written` (only the first iteration prepends the header). -/
def mysqlEntries (db : MyDB) (bt : Str) : List (Str × Str) → Bool → List (Str × List MyFrag)
  | [], _ => []
  | (t, ty) :: rest, hw =>
    (t, mysqlTableFrags db bt (!hw) t ty) :: mysqlEntries db bt rest true

/-- Embeds `MySQLBackup.backup` (mysql_backup.py lines 77-158): the mapping
from table name to fragment list, plus the reserved `permissions` and
`footer` entries (the footer only when the header was written, i.e. when at
least one table was iterated). -/
def mysqlBackup (db : MyDB) (bt : Str) (tables : Option (List Str)) (ip : Bool) :
    List (Str × List MyFrag) :=
  mysqlEntries db bt (mysqlTargets db tables) false ++
  (if ip then [("permissions".data, [MyFrag.permissions db.grants])] else []) ++
  (if (mysqlTargets db tables).isEmpty then [] else [("footer".data, [MyFrag.footer])])

/-- The shared pragma header (`_generate_backup_header`, mysql_backup.py
lines 38-50). -/
def mysqlHeader : Str :=
  ("\n/*!40101 SET @OLD_CHARACTER_SET_CLIENT=@@CHARACTER_SET_CLIENT */;\n/*!40101 SET @OLD_CHARACTER_SET_RESULTS=@@CHARACTER_SET_RESULTS */;\n/*!40101 SET @OLD_COLLATION_CONNECTION=@@COLLATION_CONNECTION */;\n/*!50503 SET NAMES utf8mb4 */;\n/*!40103 SET @OLD_TIME_ZONE=@@TIME_ZONE */;\n/*!40103 SET TIME_ZONE='+00:00' */;\n/*!40014 SET @OLD_UNIQUE_CHECKS=@@UNIQUE_CHECKS, UNIQUE_CHECKS=0 */;\n/*!40014 SET @OLD_FOREIGN_KEY_CHECKS=@@FOREIGN_KEY_CHECKS, FOREIGN_KEY_CHECKS=0 */;\n/*!40101 SET @OLD_SQL_MODE=@@SQL_MODE, SQL_MODE='NO_AUTO_VALUE_ON_ZERO' */;\n/*!40111 SET @OLD_SQL_NOTES=@@SQL_NOTES, SQL_NOTES=0 */;\n\n").data

/-- The shared pragma footer (`_generate_backup_footer`, mysql_backup.py
lines 8-18). -/
def mysqlFooter : Str :=
  ("\n/*!40101 SET SQL_MODE=@OLD_SQL_MODE */;\n/*!40014 SET FOREIGN_KEY_CHECKS=@OLD_FOREIGN_KEY_CHECKS */;\n/*!40014 SET UNIQUE_CHECKS=@OLD_UNIQUE_CHECKS */;\n/*!40101 SET CHARACTER_SET_CLIENT=@OLD_CHARACTER_SET_CLIENT */;\n/*!40101 SET CHARACTER_SET_RESULTS=@OLD_CHARACTER_SET_RESULTS */;\n/*!40101 SET COLLATION_CONNECTION=@OLD_COLLATION_CONNECTION */;\n/*!40103 SET TIME_ZONE=@OLD_TIME_ZONE */;\n/*!40111 SET SQL_NOTES=@OLD_SQL_NOTES */;\n").data

/-- The single multi-row INSERT built for one table's data (mysql_backup.py
lines 133-140). -/
def mysqlInsertStatement (t : Str) (cols : List Str) (rows : List (List MyVal)) : Str :=
  "INSERT INTO `".data ++ t ++ "` (`".data ++ List.intercalate "`, `".data cols ++
  "`) VALUES ".data ++
  List.intercalate ",\n".data (rows.map (fun row =>
    "(".data ++ List.intercalate ", ".data (row.map mysqlFormatValue) ++ ")".data)) ++
  ";\n".data

/-- The exact string one `MyFrag` stands for in `backup_data`
(mysql_backup.py lines 113-155). -/
def renderMyFrag : MyFrag → Str
  | .header => mysqlHeader
  | .struct t isView cs =>
      if isView then
        "-- Structure for view `".data ++ t ++ "`\nDROP VIEW IF EXISTS `".data ++ t ++
        "`;\n".data ++ cs ++ ";\n\n".data
      else
        "-- Table structure for table `".data ++ t ++ "`\nDROP TABLE IF EXISTS `".data ++ t ++
        "`;\n".data ++ cs ++ ";\n\n".data
  | .data t cols rows =>
      "-- Data for table `".data ++ t ++ "`\n".data ++
      "LOCK TABLES `".data ++ t ++ "` WRITE;\n".data ++
      mysqlInsertStatement t cols rows ++
      "UNLOCK TABLES;\n".data ++ "\n\n".data
  | .permissions grants =>
      "-- Permissions\n".data ++ List.intercalate "\n".data grants ++ "\n\n".data
  | .footer => mysqlFooter

/-- The MySQL backup artifact with every fragment rendered to its string, as
the source's `Dict[str, List[str]]`. -/
def mysqlBackupStrings (db : MyDB) (bt : Str) (tables : Option (List Str)) (ip : Bool) :
    List (Str × List Str) :=
  (mysqlBackup db bt tables ip).map (fun e => (e.1, e.2.map renderMyFrag))

-- Piece and fragment classifiers ----------------------------------------------

/-- Recognizes an enum-type piece. -/
def PgPiece.isTypeStmt : PgPiece → Bool
  | .typeStmt _ => true
  | _ => false

/-- Recognizes a sequence piece. -/
def PgPiece.isSeqStmt : PgPiece → Bool
  | .seqStmt _ => true
  | _ => false

/-- Recognizes a CREATE TABLE piece. -/
def PgPiece.isCreate : PgPiece → Bool
  | .createTable _ => true
  | _ => false

/-- Recognizes a deferred foreign-key ALTER piece. -/
def PgPiece.isFk : PgPiece → Bool
  | .fkAlter _ => true
  | _ => false

/-- The table of a CREATE TABLE piece. -/
def createTableName? : PgPiece → Option Str
  | .createTable t => some t
  | _ => Option.none

/-- The table of a foreign-key ALTER piece. -/
def fkAlterName? : PgPiece → Option Str
  | .fkAlter t => some t
  | _ => Option.none

/-- Recognizes a MySQL data (INSERT block) fragment. -/
def MyFrag.isData : MyFrag → Bool
  | .data _ _ _ => true
  | _ => false

/-- Whether position `i` of the list holds an element satisfying `P`. -/
def nthIs {α : Type} (P : α → Bool) (l : List α) (i : Nat) : Bool :=
  match l[i]? with
  | some p => P p
  | Option.none => false

-- Concrete snapshots used by witnesses and counterexamples --------------------

/-- A MySQL database with one empty BASE TABLE. -/
def myDB3 : MyDB :=
  ⟨[⟨"e".data, "BASE TABLE".data, "CREATE TABLE `e` (a int)".data, ["a".data], []⟩], []⟩

/-- A Postgres database with one empty BASE TABLE. -/
def pgDB3 : PgDB :=
  ⟨[⟨"e".data, "BASE TABLE".data, [⟨"a".data, "integer".data, "NO".data, Option.none⟩],
     [], [], ["a".data], []⟩], [], []⟩

/-- A Postgres database with two BASE TABLEs, the second referencing the
first through a foreign key. -/
def pgDB5 : PgDB :=
  ⟨[⟨"p".data, "BASE TABLE".data, [⟨"a".data, "integer".data, "NO".data, Option.none⟩],
     [], [], ["a".data], []⟩,
    ⟨"q".data, "BASE TABLE".data, [⟨"b".data, "integer".data, "NO".data, Option.none⟩],
     [], [⟨"q_b_fkey".data, "q".data, "b".data, "p".data, "a".data⟩], [], []⟩],
   [], []⟩

/-- A Postgres database whose only relation is a VIEW with one row. -/
def pgViewDB : PgDB :=
  ⟨[⟨"v".data, "VIEW".data, [⟨"a".data, "integer".data, "YES".data, Option.none⟩],
     [[PgVal.int 1]], [], [], []⟩], [], []⟩

/-- A MySQL database with one BASE TABLE holding one row. -/
def myDB6 : MyDB :=
  ⟨[⟨"t".data, "BASE TABLE".data, "CREATE TABLE `t` (a int)".data, ["a".data],
     [[MyVal.int 1]]⟩], []⟩

-- Fault model for error handling (C9) ------------------------------------------

/-- A low-level driver fault (a `pymysql.MySQLError` or psycopg2 error),
carrying its `str(e)` text. -/
structure Fault where
  msg : Str
deriving DecidableEq, Repr

/-- The domain errors of configuration_files/exceptions.py raised by the core:
`BackupError` and `RestoreError`, each built from a context message and
preserving the original driver fault as its cause (`raise ... from e`). -/
inductive AppError
  | backupError (msg : Str) (cause : Fault)
  | restoreError (msg : Str) (cause : Fault)
deriving DecidableEq, Repr

/-- A MySQL connection whose individual queries can fault, one field per
query site of `MySQLBackup.backup`. -/
structure MyFDB where
  tablesAll : Except Fault (List (Str × Str))
  tablesIn : List Str → Except Fault (List (Str × Str))
  showCreate : Str → Except Fault Str
  selectAll : Str → Except Fault (List Str × List (List MyVal))
  showGrants : Except Fault (List Str)

/-- The loop body of `MySQLBackup.backup` over a fallible connection, in
source query order: `SHOW CREATE TABLE` when structure is requested, then
`SELECT *` for a BASE TABLE when data is requested. -/
def mysqlFragsE (db : MyFDB) (bt : Str) (withHeader : Bool) (t ty : Str) :
    Except Fault (List MyFrag) := do
  let structFrags ←
    if structLike bt then do
      let cs ← db.showCreate t
      pure [MyFrag.struct t (ty == "VIEW".data) cs]
    else pure []
  let dataFrags ←
    if ty == "BASE TABLE".data && dataLike bt then do
      let res ← db.selectAll t
      pure (if res.2.isEmpty then [] else [MyFrag.data t res.1 res.2])
    else pure []
  pure ((if withHeader then [MyFrag.header] else []) ++ structFrags ++ dataFrags)

/-- The table loop of `MySQLBackup.backup` over a fallible connection. -/
def mysqlEntriesE (db : MyFDB) (bt : Str) :
    List (Str × Str) → Bool → Except Fault (List (Str × List MyFrag))
  | [], _ => pure []
  | (t, ty) :: rest, hw => do
      let frags ← mysqlFragsE db bt (!hw) t ty
      let more ← mysqlEntriesE db bt rest true
      pure ((t, frags) :: more)

/-- The body of the `try` block of `MySQLBackup.backup` (mysql_backup.py
lines 93-158) over a fallible connection. -/
def mysqlBackupCore (db : MyFDB) (bt : Str) (tables : Option (List Str)) (ip : Bool) :
    Except Fault (List (Str × List MyFrag)) := do
  let targets ← match tables with
    | Option.none => db.tablesAll
    | some ts => db.tablesIn ts
  let entries ← mysqlEntriesE db bt targets false
  let permPart ←
    if ip then do
      let gs ← db.showGrants
      pure [("permissions".data, [MyFrag.permissions gs])]
    else pure []
  pure (entries ++ permPart ++
    (if targets.isEmpty then [] else [("footer".data, [MyFrag.footer])]))

/-- Embeds `MySQLBackup.backup` with its `except pymysql.MySQLError` handler
(mysql_backup.py lines 159-160): every driver fault is re-raised as
`BackupError(f"Error during backup: {str(e)}")` with the fault as cause. -/
def mysqlBackupE (db : MyFDB) (bt : Str) (tables : Option (List Str)) (ip : Bool) :
    Except AppError (List (Str × List MyFrag)) :=
  match mysqlBackupCore db bt tables ip with
  | .ok v => .ok v
  | .error e => .error (AppError.backupError ("Error during backup: ".data ++ e.msg) e)

/-- Whitespace for Python's default `str.strip()`. -/
def isPySpace (c : Char) : Bool :=
  c = ' ' || c = '\t' || c = '\n' || c = '\x0d' || c = '\x0b' || c = '\x0c'

/-- Python's `command.strip()`. -/
def pyStrip (s : Str) : Str :=
  ((s.dropWhile isPySpace).reverse.dropWhile isPySpace).reverse

/-- The command loop of `MySQLBackupRestore.restore` (mysql_restore.py lines
36-39): each non-blank command is executed in order; the first fault stops
the loop. -/
def mysqlRestoreGo (exec : Str → Except Fault Unit) : List Str → Except Fault Unit
  | [] => Except.ok ()
  | c :: rest =>
    if (pyStrip c).isEmpty then mysqlRestoreGo exec rest
    else
      match exec c with
      | .ok _ => mysqlRestoreGo exec rest
      | .error e => .error e

/-- Embeds `MySQLBackupRestore.restore` with its handler (mysql_restore.py
lines 40-41): a driver fault is re-raised as `RestoreError` with the fault
as cause. -/
def mysqlRestoreE (exec : Str → Except Fault Unit) (cmds : List Str) : Except AppError Unit :=
  match mysqlRestoreGo exec cmds with
  | .ok v => .ok v
  | .error e =>
      .error (AppError.restoreError
        ("An error occurred while restoring the database: ".data ++ e.msg) e)

/-- Embeds `PostgresBackupRestore.restore` (postgres_restore.py lines 27-35):
the commands are executed in order with NO try/except around them — a driver
fault propagates unchanged. -/
def pgRestoreRun (exec : Str → Except Fault Unit) : List Str → Except Fault Unit
  | [] => .ok ()
  | c :: rest =>
    match exec c with
    | .ok _ => pgRestoreRun exec rest
    | .error e => .error e

/-- A Postgres connection whose individual queries can fault, one field per
query site of `PostgresBackup.backup`. -/
structure PgFDB where
  baseTablesQ : Except Fault (List Str)
  colsQ : Str → Except Fault (List PgCol)
  fksQ : Str → Except Fault (List PgFK)
  pksQ : Str → Except Fault (List Str)
  seqNamesQ : Except Fault (List Str)
  seqInfoQ : Str → Except Fault PgSeq
  udtypesQ : Except Fault (List (Str × List Str))
  selectQ : Str → Except Fault (List (List PgVal))
  colsDataQ : Str → Except Fault (List (Str × Str))
  permsQ : Str → Except Fault (List (Str × Str))

/-- Monadic map over a fallible query, stopping at the first fault. -/
def mapE {α β : Type} (f : α → Except Fault β) : List α → Except Fault (List β)
  | [] => pure []
  | a :: l => do
      let b ← f a
      let bs ← mapE f l
      pure (b :: bs)

/-- Embeds `PostgresBackup.backup` (postgres_backup.py lines 204-345) over a
fallible connection, with the queries in source order (including the
re-queries for the progress-bar total and in the create loop). The method has
NO try/except: a driver fault from any query propagates unchanged. -/
def pgBackupCore (db : PgFDB) (bt : Str) (tables : Option (List Str)) (ip : Bool) :
    Except Fault Str := do
  let all_tables ← match tables with
    | Option.none => db.baseTablesQ
    | some ts => pure ts
  let inc := tables.isNone
  if inc then do
    let _ ← db.seqNamesQ
    let _ ← db.udtypesQ
    pure ()
  else pure ()
  let table_definitions ← mapE (fun t => do
      let cs ← db.colsQ t
      let _ ← db.fksQ t
      pure (t, cs)) all_tables
  let sequences ← if inc then db.seqNamesQ else pure []
  let udtypes ← if inc then db.udtypesQ else pure []
  let typeSec :=
    if structLike bt && inc then
      (udtypes.map (fun p => create_type_statement p.1 p.2 ++ "\n".data)).flatten
    else []
  let seqSec ←
    if structLike bt && inc then
      mapE (fun s => do
        let info ← db.seqInfoQ s
        pure (create_sequence_statement s info ++ "\n".data)) sequences
    else pure []
  let createData ←
    if structLike bt then
      mapE (fun t => do
        let pks ← db.pksQ t
        let fks ← db.fksQ t
        pure (create_table_statement t ((table_definitions.lookup t).getD []) pks
                ++ "\n".data, (t, fks))) all_tables
    else pure []
  let dataSec ←
    if dataLike bt then
      mapE (fun t => do
        let rows ← db.selectQ t
        let cols ← db.colsDataQ t
        pure (if rows.isEmpty then []
              else create_insert_statement t cols rows ++ "\n".data)) all_tables
    else pure []
  let fkSec :=
    (createData.map (fun cd =>
       if cd.2.2.isEmpty then [] else create_foreign_key_statement cd.2.2 ++ "\n".data)).flatten
  let permSec ←
    if ip then
      mapE (fun t => do
        let ps ← db.permsQ t
        pure (if ps.isEmpty then []
              else create_permission_statements t ps ++ "\n".data)) all_tables
    else pure []
  pure (pgPreamble ++ typeSec ++ seqSec.flatten ++
        (createData.map Prod.fst).flatten ++ dataSec.flatten ++ fkSec ++ permSec.flatten)

/-- A Postgres connection whose initial catalog query raises `f` and whose
other queries succeed with empty results. -/
def pgFaultyDB (f : Fault) : PgFDB :=
  ⟨Except.error f, fun _ => pure [], fun _ => pure [], fun _ => pure [],
   pure [], fun s => pure ⟨s, 1, 1, Option.none, Option.none, 1⟩, pure [],
   fun _ => pure [], fun _ => pure [], fun _ => pure []⟩

-- Supporting lemmas -----------------------------------------------------------

theorem escQuote_eq_nil {t : Str} (h : escQuote t = []) : t = [] := by
  cases t with
  | nil => rfl
  | cons d u =>
    simp only [escQuote] at h
    split at h <;> simp at h

theorem collapseQuotes_escQuote (s : Str) : collapseQuotes (escQuote s) = s := by
  induction s with
  | nil => rfl
  | cons c t ih =>
    by_cases hc : c = '\''
    · subst hc
      simp [escQuote, collapseQuotes, ih]
    · rw [show escQuote (c :: t) = c :: escQuote t by simp [escQuote, hc]]
      cases ht : escQuote t with
      | nil =>
        rw [escQuote_eq_nil ht]
        rfl
      | cons e rest =>
        have : ¬ (c = '\'' ∧ e = '\'') := fun h => hc h.1
        simp only [collapseQuotes, if_neg this]
        rw [← ht, ih]

theorem getLast?_append_singleton (l : Str) (a : Char) : (l ++ [a]).getLast? = some a := by
  induction l with
  | nil => rfl
  | cons c t ih =>
    cases t with
    | nil => rfl
    | cons d u => simpa using ih

theorem dropLast_append_singleton (l : Str) (a : Char) : (l ++ [a]).dropLast = l := by
  simp

theorem specReparse_quoted (s : Str) :
    specReparseLiteral ('\'' :: escQuote s ++ ['\'']) = some s := by
  have h1 : (escQuote s ++ ['\'']).getLast? = some '\'' := getLast?_append_singleton _ _
  have h2 : (escQuote s ++ ['\'']).dropLast = escQuote s := dropLast_append_singleton _ _
  show (if '\'' = '\'' ∧ (escQuote s ++ ['\'']).getLast? = some '\''
        then some (collapseQuotes (escQuote s ++ ['\'']).dropLast)
        else Option.none) = some s
  rw [if_pos ⟨rfl, h1⟩, h2, collapseQuotes_escQuote]

theorem pySplit_ne_nil (sep : Char) (l : Str) : pySplit sep l ≠ [] := by
  cases l with
  | nil => simp [pySplit]
  | cons c rest =>
    simp only [pySplit]
    split
    · simp
    · split <;> simp

theorem pySplit_cons_ne (sep c : Char) (u : Str) (hc : c ≠ sep) :
    pySplit sep (c :: u) =
      match pySplit sep u with
      | [] => [[c]]
      | f :: fs => (c :: f) :: fs := by
  simp [pySplit, hc]

theorem pySplit_append_sep (sep : Char) (t : Str) :
    pySplit sep (t ++ [sep]) = pySplit sep t ++ [[]] := by
  induction t with
  | nil => simp [pySplit]
  | cons c u ih =>
    by_cases hc : c = sep
    · subst hc
      simp [pySplit, ih]
    · rw [show (c :: u) ++ [sep] = c :: (u ++ [sep]) from rfl,
        pySplit_cons_ne sep c _ hc, pySplit_cons_ne sep c u hc, ih]
      cases hu : pySplit sep u with
      | nil => exact absurd hu (pySplit_ne_nil sep u)
      | cons f fs => simp

theorem pySplit_append (sep : Char) (a b : Str) :
    pySplit sep (a ++ sep :: b) = pySplit sep a ++ pySplit sep b := by
  induction a with
  | nil => simp [pySplit]
  | cons c u ih =>
    by_cases hc : c = sep
    · subst hc
      simp [pySplit, ih]
    · rw [show (c :: u) ++ sep :: b = c :: (u ++ sep :: b) from rfl,
        pySplit_cons_ne sep c _ hc, pySplit_cons_ne sep c u hc, ih]
      cases hu : pySplit sep u with
      | nil => exact absurd hu (pySplit_ne_nil sep u)
      | cons f fs => simp

theorem pySplit_no_sep (sep : Char) (v : Str) (h : sep ∉ v) : pySplit sep v = [v] := by
  induction v with
  | nil => rfl
  | cons c u ih =>
    have hc : c ≠ sep := fun hh => h (hh ▸ List.mem_cons_self c u)
    have hu : sep ∉ u := fun hh => h (List.mem_cons_of_mem c hh)
    simp only [pySplit, if_neg hc, ih hu]

-- Claims about the value encoders and the script splitter ---------------------

/-- C1: for every string, both engine families' value encoders produce a
single-quoted literal with each embedded quote doubled, and re-parsing
(stripping the outer quotes, collapsing doubled quotes) yields the string
back; the string O'Brien encodes to 'O''Brien'. -/
theorem c1_string_roundtrip :
    (∀ s : Str, specReparseLiteral (mysqlFormatValue (MyVal.str s)) = some s) ∧
    (∀ s : Str, specReparseLiteral (pgFormatValue (PgVal.str s)) = some s) ∧
    mysqlFormatValue (MyVal.str "O'Brien".data) = "'O''Brien'".data ∧
    pgFormatValue (PgVal.str "O'Brien".data) = "'O''Brien'".data := by
  exact ⟨fun s => specReparse_quoted s, fun s => specReparse_quoted s, by decide, by decide⟩

/-- C2 counterexample: the Postgres-family encoder does not encode the byte
sequence b'\xAB\xCD' to 0xabcd — a raw bytes value falls into the
`str(value)` branch and yields the Python repr text, and the memoryview form
that psycopg2 actually delivers yields the placeholder '<memory>'. -/
theorem c2_counterexample_pg_bytes :
    pgFormatValue (PgVal.bytes [171, 205]) ≠ "0xabcd".data ∧
    pgFormatValue (PgVal.memview [171, 205]) ≠ "0xabcd".data := by decide

/-- C2 amended: None encodes to NULL in both families; MySQL booleans encode
to TRUE/FALSE and Postgres booleans to the stringified Python text True/False;
b'\xAB\xCD' encodes to 0xabcd in the MySQL family only, while the Postgres
family stringifies raw bytes (Python repr) and renders binary memoryview
values as the placeholder '<memory>'. -/
theorem c2_amended_scalar_encodings :
    mysqlFormatValue MyVal.none = "NULL".data ∧
    pgFormatValue PgVal.none = "NULL".data ∧
    mysqlFormatValue (MyVal.bool true) = "TRUE".data ∧
    mysqlFormatValue (MyVal.bool false) = "FALSE".data ∧
    pgFormatValue (PgVal.bool true) = "True".data ∧
    pgFormatValue (PgVal.bool false) = "False".data ∧
    mysqlFormatValue (MyVal.bytes [171, 205]) = "0xabcd".data ∧
    pgFormatValue (PgVal.bytes [171, 205]) = "b'\\xab\\xcd'".data ∧
    pgFormatValue (PgVal.memview [171, 205]) = "'<memory>'".data := by decide

/-- C7: the restore script splitter splits stored text on the terminator ';'
and, for terminator-ended text, drops exactly the single trailing empty
fragment: "A;B;C;" yields ["A","B","C"], "A;" yields ["A"], and in general
splitting `t ++ ";"` yields exactly the `;`-fragments of `t`. -/
theorem c7_split_drops_trailing_empty :
    read_sql_commands "A;B;C;".data = ["A".data, "B".data, "C".data] ∧
    read_sql_commands "A;".data = ["A".data] ∧
    ∀ t : Str, read_sql_commands (t ++ [';']) = pySplit ';' t := by
  refine ⟨by decide, by decide, fun t => ?_⟩
  unfold read_sql_commands
  rw [pySplit_append_sep]
  simp

/-- C8 (code bug evaluation): because `isinstance(value, date)` is true for
every `datetime`, the Postgres-family encoder emits the date-only literal for
a timestamp value, discarding the time part; the MySQL family does emit the
full 'YYYY-MM-DD HH:MM:SS' literal for a datetime. -/
theorem c8_pg_datetime_loses_time :
    pgFormatValue (PgVal.datetime 2024 5 6 7 8 9) = "'2024-05-06'".data ∧
    pgFormatValue (PgVal.date 2024 5 6) = "'2024-05-06'".data ∧
    mysqlFormatValue (MyVal.datetime 2024 5 6 7 8 9) = "'2024-05-06 07:08:09'".data := by
  decide

/-- C10: when the stored text does not end with ';', the splitter silently
discards everything after the last terminator: the result on `u ++ ";" ++ v`
(with `v` terminator-free) equals the fragments of `u` alone, exactly as if
the trailing statement `v` were absent. -/
theorem c10_trailing_statement_dropped (u v : Str) (hv : ';' ∉ v) :
    read_sql_commands (u ++ ';' :: v) = pySplit ';' u ∧
    read_sql_commands (u ++ ';' :: v) = read_sql_commands (u ++ [';']) := by
  have h1 : read_sql_commands (u ++ ';' :: v) = pySplit ';' u := by
    unfold read_sql_commands
    rw [pySplit_append, pySplit_no_sep ';' v hv]
    simp
  have h2 : read_sql_commands (u ++ [';']) = pySplit ';' u := by
    unfold read_sql_commands
    rw [pySplit_append_sep]
    simp
  exact ⟨h1, h1.trans h2.symm⟩

/-- C10 witness: "A;B" splits to just ["A"] — the unterminated statement B is
dropped. -/
theorem c10_witness :
    (';' ∉ "B".data) ∧ read_sql_commands ("A".data ++ ';' :: "B".data) = pySplit ';' "A".data :=
  ⟨by decide, (c10_trailing_statement_dropped "A".data "B".data (by decide)).1⟩

-- Section shape lemmas ---------------------------------------------------------

theorem mem_pgTypeSec {db : PgDB} {bt : Str} {inc : Bool} {p : PgPiece}
    (h : p ∈ pgTypeSec db bt inc) :
    ∃ n, p = PgPiece.typeStmt n ∧ (structLike bt && inc) = true := by
  unfold pgTypeSec at h
  split at h
  · obtain ⟨q, _, hq⟩ := List.mem_map.1 h
    exact ⟨q.1, hq.symm, by assumption⟩
  · simp at h

theorem mem_pgSeqSec {db : PgDB} {bt : Str} {inc : Bool} {p : PgPiece}
    (h : p ∈ pgSeqSec db bt inc) :
    ∃ n, p = PgPiece.seqStmt n ∧ (structLike bt && inc) = true := by
  unfold pgSeqSec at h
  split at h
  · obtain ⟨q, _, hq⟩ := List.mem_map.1 h
    exact ⟨q.name, hq.symm, by assumption⟩
  · simp at h

theorem mem_pgCreateSec {bt : Str} {ts : List Str} {p : PgPiece}
    (h : p ∈ pgCreateSec bt ts) :
    ∃ t, p = PgPiece.createTable t ∧ t ∈ ts ∧ structLike bt = true := by
  unfold pgCreateSec at h
  split at h
  · obtain ⟨t, ht, hq⟩ := List.mem_map.1 h
    exact ⟨t, hq.symm, ht, by assumption⟩
  · simp at h

theorem mem_pgDataSec {db : PgDB} {bt : Str} {ts : List Str} {p : PgPiece}
    (h : p ∈ pgDataSec db bt ts) :
    ∃ t, p = PgPiece.insertData t ∧ t ∈ ts ∧ (pgRows db t).isEmpty = false ∧
      dataLike bt = true := by
  unfold pgDataSec at h
  split at h
  · obtain ⟨t, ht, he⟩ := List.mem_filterMap.1 h
    by_cases hr : (pgRows db t).isEmpty
    · simp [hr] at he
    · simp [hr] at he
      exact ⟨t, he.symm, ht, by simpa using hr, by assumption⟩
  · simp at h

theorem mem_pgFkSec {db : PgDB} {bt : Str} {ts : List Str} {p : PgPiece}
    (h : p ∈ pgFkSec db bt ts) :
    ∃ t, p = PgPiece.fkAlter t ∧ t ∈ ts ∧ (pgFks db t).isEmpty = false ∧
      structLike bt = true := by
  unfold pgFkSec at h
  split at h
  · obtain ⟨t, ht, he⟩ := List.mem_filterMap.1 h
    by_cases hr : (pgFks db t).isEmpty
    · simp [hr] at he
    · simp [hr] at he
      exact ⟨t, he.symm, ht, by simpa using hr, by assumption⟩
  · simp at h

theorem mem_pgPermSec {db : PgDB} {ip : Bool} {ts : List Str} {p : PgPiece}
    (h : p ∈ pgPermSec db ip ts) : ∃ t, p = PgPiece.permStmt t := by
  unfold pgPermSec at h
  split at h
  · obtain ⟨t, _, he⟩ := List.mem_filterMap.1 h
    by_cases hr : (pgPerms db t).isEmpty
    · simp [hr] at he
    · simp [hr] at he
      exact ⟨t, he.symm⟩
  · simp at h

theorem nthIs_lt {α : Type} (L1 L2 : List α) (P Q : α → Bool)
    (hP : ∀ x ∈ L2, P x = false) (hQ : ∀ x ∈ L1, Q x = false)
    (i j : Nat) (hi : nthIs P (L1 ++ L2) i = true) (hj : nthIs Q (L1 ++ L2) j = true) :
    i < j := by
  have hiL : i < L1.length := by
    by_contra hcon
    push_neg at hcon
    unfold nthIs at hi
    rw [List.getElem?_append_right hcon] at hi
    cases he : L2[i - L1.length]? with
    | none => rw [he] at hi; cases hi
    | some p =>
      have hfalse := hP p (List.getElem?_mem he)
      rw [he] at hi
      simp [hfalse] at hi
  have hjL : L1.length ≤ j := by
    by_contra hcon
    push_neg at hcon
    unfold nthIs at hj
    rw [List.getElem?_append, if_pos hcon] at hj
    cases he : L1[j]? with
    | none => rw [he] at hj; cases hj
    | some p =>
      have hfalse := hQ p (List.getElem?_mem he)
      rw [he] at hj
      simp [hfalse] at hj
  omega

theorem mem_mysqlEntries_of_target {db : MyDB} {bt : Str} {t ty : Str}
    {l : List (Str × Str)} (hw : Bool) (h : (t, ty) ∈ l) :
    ∃ b : Bool, (t, mysqlTableFrags db bt b t ty) ∈ mysqlEntries db bt l hw := by
  induction l generalizing hw with
  | nil => cases h
  | cons p rest ih =>
    rcases List.mem_cons.1 h with h | h
    · exact ⟨!hw, by rw [← h]; exact List.mem_cons_self _ _⟩
    · obtain ⟨b, hb⟩ := ih true h
      exact ⟨b, by cases p with | mk a c => exact List.mem_cons_of_mem _ hb⟩

theorem mysqlEntries_mem {db : MyDB} {bt : Str} :
    ∀ {l : List (Str × Str)} {hw : Bool} {t : Str} {frags : List MyFrag},
    (t, frags) ∈ mysqlEntries db bt l hw →
    ∃ ty b, (t, ty) ∈ l ∧ frags = mysqlTableFrags db bt b t ty := by
  intro l
  induction l with
  | nil => intro hw t frags h; cases h
  | cons p rest ih =>
    intro hw t frags h
    cases p with
    | mk a c =>
      rcases List.mem_cons.1 h with h | h
      · have h1 : t = a ∧ frags = mysqlTableFrags db bt (!hw) a c := by
          exact ⟨congrArg Prod.fst h, congrArg Prod.snd h⟩
        exact ⟨c, !hw, by rw [h1.1]; exact List.mem_cons_self _ _, by rw [h1.2, h1.1]⟩
      · obtain ⟨ty, b, hmem, hfr⟩ := ih h
        exact ⟨ty, b, List.mem_cons_of_mem _ hmem, hfr⟩

-- filterMap computations for the piece lists ----------------------------------

theorem filterMap_createTable_map (ts : List Str) :
    (ts.map PgPiece.createTable).filterMap createTableName? = ts := by
  induction ts with
  | nil => rfl
  | cons a l ih => simp [createTableName?, ih]

theorem filterMap_fkAlter_filterMap (db : PgDB) (ts : List Str) :
    (ts.filterMap (fun t => if (pgFks db t).isEmpty then Option.none
                            else some (PgPiece.fkAlter t))).filterMap fkAlterName? =
      ts.filter (fun t => !(pgFks db t).isEmpty) := by
  induction ts with
  | nil => rfl
  | cons a l ih =>
    cases h : pgFks db a with
    | nil => simpa [h, fkAlterName?] using ih
    | cons x xs => simpa [h, fkAlterName?] using ih

-- C3 ---------------------------------------------------------------------------

/-- C3: in a `structure` or `structure_data` backup run, a table with zero
rows gets its structure DDL emitted but no INSERT: in the MySQL family its
fragment list holds the structure fragment and no data fragment, and in the
Postgres family the piece list holds its CREATE piece and no INSERT piece. -/
theorem c3_zero_rows_ddl_no_insert (bt : Str)
    (hbt : bt = "structure".data ∨ bt = "structure_data".data) :
    (∀ (db : MyDB) (tables : Option (List Str)) (ip : Bool) (t ty : Str),
       (t, ty) ∈ mysqlTargets db tables → mysqlRows db t = [] →
       ∃ frags, (t, frags) ∈ mysqlBackup db bt tables ip ∧
         MyFrag.struct t (ty == "VIEW".data) (mysqlCreateStmt db t) ∈ frags ∧
         ∀ f ∈ frags, f.isData = false) ∧
    (∀ (db : PgDB) (tables : Option (List Str)) (ip : Bool) (t : Str),
       t ∈ pgAllTables db tables → pgRows db t = [] →
       PgPiece.createTable t ∈ pgBackupPieces db bt tables ip ∧
       PgPiece.insertData t ∉ pgBackupPieces db bt tables ip) := by
  have hsl : structLike bt = true := by
    rcases hbt with h | h <;> simp [structLike, h]
  constructor
  · intro db tables ip t ty hmem hrows
    obtain ⟨b, hb⟩ :=
      @mem_mysqlEntries_of_target db bt t ty (mysqlTargets db tables) false hmem
    refine ⟨mysqlTableFrags db bt b t ty, ?_, ?_, ?_⟩
    · unfold mysqlBackup
      exact List.mem_append_left _ (List.mem_append_left _ hb)
    · simp [mysqlTableFrags, hsl, hrows]
    · intro f hf
      cases b <;> simp [mysqlTableFrags, hsl, hrows] at hf
      · rw [hf]; rfl
      · rcases hf with hf | hf <;> (rw [hf]; rfl)
  · intro db tables ip t hmem hrows
    constructor
    · have hc : PgPiece.createTable t ∈ pgCreateSec bt (pgAllTables db tables) := by
        simp [pgCreateSec, hsl]
        exact hmem
      unfold pgBackupPieces
      exact List.mem_append_left _ (List.mem_append_left _
        (List.mem_append_left _ (List.mem_append_right _ hc)))
    · intro hin
      simp only [pgBackupPieces, List.mem_append] at hin
      rcases hin with ((((hin | hin) | hin) | hin) | hin) | hin
      · obtain ⟨n, heq, -⟩ := mem_pgTypeSec hin
        simp at heq
      · obtain ⟨n, heq, -⟩ := mem_pgSeqSec hin
        simp at heq
      · obtain ⟨u, heq, -, -⟩ := mem_pgCreateSec hin
        simp at heq
      · obtain ⟨u, heq, -, hne, -⟩ := mem_pgDataSec hin
        have : u = t := by simpa using heq.symm
        rw [this, hrows] at hne
        simp at hne
      · obtain ⟨u, heq, -, -, -⟩ := mem_pgFkSec hin
        simp at heq
      · obtain ⟨u, heq⟩ := mem_pgPermSec hin
        simp at heq

/-- C3 witness: both hypotheses hold on the concrete one-empty-table
snapshots, and the Postgres conclusion is obtained from the theorem there. -/
theorem c3_witness :
    (("structure".data : Str) = "structure".data ∨
       ("structure".data : Str) = "structure_data".data) ∧
    ("e".data, "BASE TABLE".data) ∈ mysqlTargets myDB3 Option.none ∧
    mysqlRows myDB3 "e".data = [] ∧
    pgRows pgDB3 "e".data = [] ∧
    PgPiece.createTable "e".data ∈ pgBackupPieces pgDB3 "structure".data Option.none false ∧
    PgPiece.insertData "e".data ∉ pgBackupPieces pgDB3 "structure".data Option.none false := by
  refine ⟨Or.inl rfl, by decide, by decide, by decide, ?_⟩
  exact (c3_zero_rows_ddl_no_insert "structure".data (Or.inl rfl)).2 pgDB3 Option.none false
    "e".data (by decide) (by decide)

-- C4 ---------------------------------------------------------------------------

/-- C4: a backup invocation with an explicit table list never emits sequence
or enum-type pieces, for every backup type and snapshot — the Postgres family
gates both sections on `tables is None` (the MySQL family has no such
statements at all). -/
theorem c4_subset_no_seq_type (db : PgDB) (bt : Str) (ts : List Str) (ip : Bool) :
    (pgBackupPieces db bt (some ts) ip).all
      (fun p => !p.isTypeStmt && !p.isSeqStmt) = true := by
  rw [List.all_eq_true]
  intro p hp
  simp only [pgBackupPieces, List.mem_append] at hp
  have hA : pgTypeSec db bt (some ts).isNone = [] := by simp [pgTypeSec]
  have hB : pgSeqSec db bt (some ts).isNone = [] := by simp [pgSeqSec]
  rw [hA, hB] at hp
  simp only [List.not_mem_nil, false_or] at hp
  rcases hp with ((hp | hp) | hp) | hp
  · obtain ⟨t, rfl, -, -⟩ := mem_pgCreateSec hp
    rfl
  · obtain ⟨t, rfl, -, -, -⟩ := mem_pgDataSec hp
    rfl
  · obtain ⟨t, rfl, -, -, -⟩ := mem_pgFkSec hp
    rfl
  · obtain ⟨t, rfl⟩ := mem_pgPermSec hp
    rfl

-- C5 ---------------------------------------------------------------------------

/-- C5: in a structure-emitting Postgres backup run, every deferred
foreign-key ALTER piece sits strictly after every CREATE TABLE piece of the
batch, and the foreign-key pieces list the tables in the same order the
CREATE pieces used (restricted to tables that have foreign keys). -/
theorem c5_fk_after_creates (db : PgDB) (bt : Str) (tables : Option (List Str)) (ip : Bool)
    (hbt : bt = "structure".data ∨ bt = "structure_data".data) :
    (∀ i j, nthIs PgPiece.isCreate (pgBackupPieces db bt tables ip) i = true →
        nthIs PgPiece.isFk (pgBackupPieces db bt tables ip) j = true → i < j) ∧
    (pgBackupPieces db bt tables ip).filterMap fkAlterName? =
      ((pgBackupPieces db bt tables ip).filterMap createTableName?).filter
        (fun t => !(pgFks db t).isEmpty) := by
  have hsl : structLike bt = true := by
    rcases hbt with h | h <;> simp [structLike, h]
  have hsplit : pgBackupPieces db bt tables ip =
      (pgTypeSec db bt tables.isNone ++ pgSeqSec db bt tables.isNone ++
       pgCreateSec bt (pgAllTables db tables) ++ pgDataSec db bt (pgAllTables db tables)) ++
      (pgFkSec db bt (pgAllTables db tables) ++ pgPermSec db ip (pgAllTables db tables)) := by
    simp [pgBackupPieces, List.append_assoc]
  constructor
  · intro i j hi hj
    rw [hsplit] at hi hj
    refine nthIs_lt _ _ _ _ ?_ ?_ i j hi hj
    · intro x hx
      rcases List.mem_append.1 hx with hx | hx
      · obtain ⟨t, rfl, -, -, -⟩ := mem_pgFkSec hx
        rfl
      · obtain ⟨t, rfl⟩ := mem_pgPermSec hx
        rfl
    · intro x hx
      simp only [List.mem_append] at hx
      rcases hx with ((hx | hx) | hx) | hx
      · obtain ⟨n, rfl, -⟩ := mem_pgTypeSec hx
        rfl
      · obtain ⟨n, rfl, -⟩ := mem_pgSeqSec hx
        rfl
      · obtain ⟨t, rfl, -, -⟩ := mem_pgCreateSec hx
        rfl
      · obtain ⟨t, rfl, -, -, -⟩ := mem_pgDataSec hx
        rfl
  · have hCsec : pgCreateSec bt (pgAllTables db tables) =
        (pgAllTables db tables).map PgPiece.createTable := by
      simp [pgCreateSec, hsl]
    have hFsec : pgFkSec db bt (pgAllTables db tables) =
        (pgAllTables db tables).filterMap
          (fun t => if (pgFks db t).isEmpty then Option.none
                    else some (PgPiece.fkAlter t)) := by
      simp [pgFkSec, hsl]
    have hfk1 : (pgTypeSec db bt tables.isNone).filterMap fkAlterName? = [] :=
      List.filterMap_eq_nil_iff.2 (fun p hp => by
        obtain ⟨n, rfl, -⟩ := mem_pgTypeSec hp; rfl)
    have hfk2 : (pgSeqSec db bt tables.isNone).filterMap fkAlterName? = [] :=
      List.filterMap_eq_nil_iff.2 (fun p hp => by
        obtain ⟨n, rfl, -⟩ := mem_pgSeqSec hp; rfl)
    have hfk3 : (pgCreateSec bt (pgAllTables db tables)).filterMap fkAlterName? = [] :=
      List.filterMap_eq_nil_iff.2 (fun p hp => by
        obtain ⟨t, rfl, -, -⟩ := mem_pgCreateSec hp; rfl)
    have hfk4 : (pgDataSec db bt (pgAllTables db tables)).filterMap fkAlterName? = [] :=
      List.filterMap_eq_nil_iff.2 (fun p hp => by
        obtain ⟨t, rfl, -, -, -⟩ := mem_pgDataSec hp; rfl)
    have hfk6 : (pgPermSec db ip (pgAllTables db tables)).filterMap fkAlterName? = [] :=
      List.filterMap_eq_nil_iff.2 (fun p hp => by
        obtain ⟨t, rfl⟩ := mem_pgPermSec hp; rfl)
    have hct1 : (pgTypeSec db bt tables.isNone).filterMap createTableName? = [] :=
      List.filterMap_eq_nil_iff.2 (fun p hp => by
        obtain ⟨n, rfl, -⟩ := mem_pgTypeSec hp; rfl)
    have hct2 : (pgSeqSec db bt tables.isNone).filterMap createTableName? = [] :=
      List.filterMap_eq_nil_iff.2 (fun p hp => by
        obtain ⟨n, rfl, -⟩ := mem_pgSeqSec hp; rfl)
    have hct4 : (pgDataSec db bt (pgAllTables db tables)).filterMap createTableName? = [] :=
      List.filterMap_eq_nil_iff.2 (fun p hp => by
        obtain ⟨t, rfl, -, -, -⟩ := mem_pgDataSec hp; rfl)
    have hct5 : (pgFkSec db bt (pgAllTables db tables)).filterMap createTableName? = [] :=
      List.filterMap_eq_nil_iff.2 (fun p hp => by
        obtain ⟨t, rfl, -, -, -⟩ := mem_pgFkSec hp; rfl)
    have hct6 : (pgPermSec db ip (pgAllTables db tables)).filterMap createTableName? = [] :=
      List.filterMap_eq_nil_iff.2 (fun p hp => by
        obtain ⟨t, rfl⟩ := mem_pgPermSec hp; rfl)
    have hfk5 : (pgFkSec db bt (pgAllTables db tables)).filterMap fkAlterName? =
        (pgAllTables db tables).filter (fun t => !(pgFks db t).isEmpty) := by
      rw [hFsec]
      exact filterMap_fkAlter_filterMap db (pgAllTables db tables)
    have hct3 : (pgCreateSec bt (pgAllTables db tables)).filterMap createTableName? =
        pgAllTables db tables := by
      rw [hCsec]
      exact filterMap_createTable_map (pgAllTables db tables)
    rw [hsplit]
    simp only [List.filterMap_append]
    rw [hfk1, hfk2, hfk3, hfk4, hfk5, hfk6, hct1, hct2, hct3, hct4, hct5, hct6]
    simp

/-- C5 witness: on a two-table snapshot with one foreign key, the CREATE at
index 1 precedes the foreign-key ALTER at index 2. -/
theorem c5_witness :
    (("structure".data : Str) = "structure".data ∨
       ("structure".data : Str) = "structure_data".data) ∧
    nthIs PgPiece.isCreate (pgBackupPieces pgDB5 "structure".data Option.none false) 1 = true ∧
    nthIs PgPiece.isFk (pgBackupPieces pgDB5 "structure".data Option.none false) 2 = true ∧
    1 < 2 := by
  refine ⟨Or.inl rfl, by decide, by decide, ?_⟩
  exact (c5_fk_after_creates pgDB5 "structure".data Option.none false (Or.inl rfl)).1 1 2
    (by decide) (by decide)

-- C6 ---------------------------------------------------------------------------

/-- C6 counterexample: on a Postgres database whose only relation is a view
with one row, a data backup restricted to that view emits an INSERT piece for
it — a view does get a data statement under an explicit table filter. -/
theorem c6_counterexample_view_insert :
    (PgDB.rel? pgViewDB "v".data).map PgRel.table_type = some "VIEW".data ∧
    PgPiece.insertData "v".data ∈
      pgBackupPieces pgViewDB "data".data (some ["v".data]) false := by
  decide

/-- C6 amended: the MySQL family gives INSERT fragments only to BASE TABLE
targets (views never); the Postgres family excludes views only in all-tables
mode — under an explicit table list, every listed relation with rows gets an
INSERT piece, view or not. -/
theorem c6_amended_insert_targets :
    (∀ (db : MyDB) (bt : Str) (tables : Option (List Str)) (ip : Bool)
       (t t' : Str) (cols : List Str) (rows : List (List MyVal)) (frags : List MyFrag),
       (t, frags) ∈ mysqlBackup db bt tables ip →
       MyFrag.data t' cols rows ∈ frags →
       t' = t ∧ (t, "BASE TABLE".data) ∈ mysqlTargets db tables) ∧
    (∀ (db : PgDB) (bt : Str) (ip : Bool) (t : Str),
       PgPiece.insertData t ∈ pgBackupPieces db bt Option.none ip →
       ∃ r, r ∈ db.rels ∧ r.name = t ∧ r.table_type = "BASE TABLE".data) ∧
    (∀ (db : PgDB) (bt : Str) (ip : Bool) (ts : List Str) (t : Str),
       PgPiece.insertData t ∈ pgBackupPieces db bt (some ts) ip ↔
       dataLike bt = true ∧ t ∈ ts ∧ (pgRows db t).isEmpty = false) := by
  refine ⟨?_, ?_, ?_⟩
  · intro db bt tables ip t t' cols rows frags hentry hdata
    unfold mysqlBackup at hentry
    simp only [List.mem_append] at hentry
    rcases hentry with (hentry | hentry) | hentry
    · obtain ⟨ty, b, hmem, rfl⟩ := mysqlEntries_mem hentry
      unfold mysqlTableFrags at hdata
      simp only [List.mem_append] at hdata
      rcases hdata with (hd | hd) | hd
      · split at hd <;> simp at hd
      · split at hd <;> simp at hd
      · by_cases hg : (ty == "BASE TABLE".data && dataLike bt
            && !(mysqlRows db t).isEmpty) = true
        · rw [if_pos hg] at hd
          simp only [List.mem_singleton] at hd
          have h1 : t' = t := by
            have := congrArg (fun f => match f with
              | MyFrag.data u _ _ => u
              | _ => t') hd
            simpa using this
          refine ⟨h1, ?_⟩
          have hty : ty = "BASE TABLE".data := by
            simp only [Bool.and_eq_true, beq_iff_eq] at hg
            exact hg.1.1
          rw [hty] at hmem
          exact hmem
        · rw [if_neg hg] at hd
          cases hd
    · split at hentry <;> simp at hentry
      rcases hentry with ⟨-, rfl⟩
      simp at hdata
    · split at hentry <;> simp at hentry
      rcases hentry with ⟨-, rfl⟩
      simp at hdata
  · intro db bt ip t hin
    simp only [pgBackupPieces, List.mem_append] at hin
    rcases hin with ((((hin | hin) | hin) | hin) | hin) | hin
    · obtain ⟨n, heq, -⟩ := mem_pgTypeSec hin
      simp at heq
    · obtain ⟨n, heq, -⟩ := mem_pgSeqSec hin
      simp at heq
    · obtain ⟨u, heq, -, -⟩ := mem_pgCreateSec hin
      simp at heq
    · obtain ⟨u, heq, hmem, -, -⟩ := mem_pgDataSec hin
      have hu : u = t := by simpa using heq.symm
      rw [hu] at hmem
      unfold pgAllTables at hmem
      obtain ⟨r, hr, hname⟩ := List.mem_map.1 hmem
      have hb := (List.mem_filter.1 hr).2
      exact ⟨r, (List.mem_filter.1 hr).1, hname, by simpa using hb⟩
    · obtain ⟨u, heq, -, -, -⟩ := mem_pgFkSec hin
      simp at heq
    · obtain ⟨u, heq⟩ := mem_pgPermSec hin
      simp at heq
  · intro db bt ip ts t
    constructor
    · intro hin
      simp only [pgBackupPieces, List.mem_append] at hin
      rcases hin with ((((hin | hin) | hin) | hin) | hin) | hin
      · obtain ⟨n, heq, -⟩ := mem_pgTypeSec hin
        simp at heq
      · obtain ⟨n, heq, -⟩ := mem_pgSeqSec hin
        simp at heq
      · obtain ⟨u, heq, -, -⟩ := mem_pgCreateSec hin
        simp at heq
      · obtain ⟨u, heq, hmem, hne, hdl⟩ := mem_pgDataSec hin
        have hu : u = t := by simpa using heq.symm
        rw [hu] at hmem hne
        exact ⟨hdl, hmem, hne⟩
      · obtain ⟨u, heq, -, -, -⟩ := mem_pgFkSec hin
        simp at heq
      · obtain ⟨u, heq⟩ := mem_pgPermSec hin
        simp at heq
    · rintro ⟨hdl, hts, hne⟩
      have hd : PgPiece.insertData t ∈ pgDataSec db bt (pgAllTables db (some ts)) := by
        unfold pgDataSec
        rw [if_pos hdl]
        exact List.mem_filterMap.2 ⟨t, hts, by rw [hne]; rfl⟩
      unfold pgBackupPieces
      exact List.mem_append_left _ (List.mem_append_left _ (List.mem_append_right _ hd))

/-- C6 witness: on the concrete one-table MySQL snapshot, the table's entry
holds a data fragment and the theorem places the table among the BASE TABLE
targets; the Postgres explicit-subset characterization is instantiated on the
one-view snapshot. -/
theorem c6_witness :
    (("t".data, mysqlTableFrags myDB6 "structure_data".data true "t".data "BASE TABLE".data)
        ∈ mysqlBackup myDB6 "structure_data".data Option.none false) ∧
    (MyFrag.data "t".data (mysqlCols myDB6 "t".data) (mysqlRows myDB6 "t".data)
        ∈ mysqlTableFrags myDB6 "structure_data".data true "t".data "BASE TABLE".data) ∧
    ("t".data = "t".data ∧
       ("t".data, "BASE TABLE".data) ∈ mysqlTargets myDB6 Option.none) ∧
    (PgPiece.insertData "v".data ∈
        pgBackupPieces pgViewDB "data".data (some ["v".data]) false ↔
      dataLike "data".data = true ∧ "v".data ∈ ["v".data] ∧
        (pgRows pgViewDB "v".data).isEmpty = false) := by
  refine ⟨by decide, by decide, ?_, ?_⟩
  · exact c6_amended_insert_targets.1 myDB6 "structure_data".data Option.none false
      "t".data "t".data (mysqlCols myDB6 "t".data) (mysqlRows myDB6 "t".data)
      (mysqlTableFrags myDB6 "structure_data".data true "t".data "BASE TABLE".data)
      (by decide) (by decide)
  · exact c6_amended_insert_targets.2.2 pgViewDB "data".data false ["v".data] "v".data

-- C9 ---------------------------------------------------------------------------

/-- C9 counterexample: a driver fault in the Postgres backup's first catalog
query, and one in a Postgres restore's statement execution, escape as the raw
driver fault — not wrapped in any domain error. -/
theorem c9_counterexample_pg_unwrapped :
    pgBackupCore (pgFaultyDB ⟨"connection lost".data⟩) "structure".data Option.none false =
      Except.error ⟨"connection lost".data⟩ ∧
    pgRestoreRun (fun _ => Except.error ⟨"connection lost".data⟩) ["SELECT 1".data] =
      Except.error ⟨"connection lost".data⟩ :=
  ⟨rfl, rfl⟩

/-- C9 amended: the MySQL family wraps every driver fault — backup faults as
`BackupError` and restore faults as `RestoreError`, each with added context
and the fault preserved as cause — while the Postgres family's backup and
restore have no handler and let the driver fault escape unchanged. -/
theorem c9_amended_wrapping :
    (∀ (db : MyFDB) (bt : Str) (tables : Option (List Str)) (ip : Bool),
       (∃ v, mysqlBackupE db bt tables ip = Except.ok v) ∨
       (∃ e, mysqlBackupCore db bt tables ip = Except.error e ∧
          mysqlBackupE db bt tables ip =
            Except.error (AppError.backupError ("Error during backup: ".data ++ e.msg) e))) ∧
    (∀ (exec : Str → Except Fault Unit) (cmds : List Str),
       (∃ v, mysqlRestoreE exec cmds = Except.ok v) ∨
       (∃ e, mysqlRestoreGo exec cmds = Except.error e ∧
          mysqlRestoreE exec cmds =
            Except.error (AppError.restoreError
              ("An error occurred while restoring the database: ".data ++ e.msg) e))) ∧
    (∀ f : Fault,
       pgBackupCore (pgFaultyDB f) "structure".data Option.none false = Except.error f) ∧
    (∀ (f : Fault) (c : Str) (cmds : List Str),
       pgRestoreRun (fun _ => Except.error f) (c :: cmds) = Except.error f) := by
  refine ⟨?_, ?_, fun f => rfl, fun f c cmds => rfl⟩
  · intro db bt tables ip
    cases h : mysqlBackupCore db bt tables ip with
    | ok v => exact Or.inl ⟨v, by unfold mysqlBackupE; rw [h]⟩
    | error e => exact Or.inr ⟨e, rfl, by unfold mysqlBackupE; rw [h]⟩
  · intro exec cmds
    cases h : mysqlRestoreGo exec cmds with
    | ok v => exact Or.inl ⟨v, by unfold mysqlRestoreE; rw [h]⟩
    | error e => exact Or.inr ⟨e, rfl, by unfold mysqlRestoreE; rw [h]⟩
